import Mathlib

/-!
Shallow embedding of `function/push-gitlab-pending-jobs-metric.py`.

The script is straight-line glue code around remote services, so each remote
service is modelled explicitly:

* the project-listing API is a list of page responses in the order the server
  returns them (the pagination loop consumes them one per request);
* the per-project job-listing API is a function from a project id to the
  response of the corresponding GET;
* an SDK call wrapped by the backoff decorator is a function from the 1-based
  attempt number to the outcome of that attempt.

Timestamps are integers (seconds since an arbitrary epoch); the source parses
`last_activity_at` into a `datetime` and compares it with
`now - timedelta(hours=4)`, which the embedding renders as integer comparison
against `now - 14400`.  A Python exception is rendered as `Except.error` with
the exception text, and a `None`/absent dictionary entry as `Option`.
-/

namespace PushGitlabMetric

/-- Source constant `MAX_RETRIES = 8`. -/
def MAX_RETRIES : Nat := 8

/-- The `Error` sub-dictionary of a botocore error response; the `Code` key may
be absent. -/
structure ErrorInfo where
  Code : Option String
deriving DecidableEq, Repr

/-- A botocore `ClientError.response` dictionary; the `Error` key may be
absent. -/
structure ClientErrorResponse where
  Error : Option ErrorInfo
deriving DecidableEq, Repr

/-- A botocore `ClientError` carrying its response dictionary. -/
structure ClientError where
  response : ClientErrorResponse
deriving DecidableEq, Repr

/-- The chained lookup `e.response.get(Error, ...).get(Code, Unknown)`
from the source: both missing keys fall back so the code defaults to
`"Unknown"`. -/
def get_error_code (e : ClientError) : String :=
  match e.response.Error with
  | none => "Unknown"
  | some info => info.Code.getD "Unknown"

/-- Source `no_request_limit_exceeded_code`: the giveup predicate handed to the
backoff decorator.  True (give up, do not retry) exactly when the error code is
not `RequestLimitExceeded`. -/
def no_request_limit_exceeded_code (e : ClientError) : Bool :=
  get_error_code e != "RequestLimitExceeded"

/-- Semantics of `backoff.on_exception(backoff.expo, ClientError,
max_tries=n, giveup=g)` applied to a call `f` (given as attempt number ↦
outcome): attempts are numbered from 1; an attempt that raises is retried
unless the giveup predicate holds or the allowed tries are exhausted.  The
result is paired with the number of calls actually made.  `remaining` counts
the tries still allowed including the current one; the `0` case is unreachable
when the decorator is entered with a positive `max_tries`. -/
def backoff_on_exception (f : Nat → Except ClientError α) (giveup : ClientError → Bool) :
    Nat → Nat → Except ClientError α × Nat
  | 0, attempt => (f attempt, attempt)
  | remaining + 1, attempt =>
    match f attempt with
    | Except.ok a => (Except.ok a, attempt)
    | Except.error e =>
      if giveup e || remaining == 0 then (Except.error e, attempt)
      else backoff_on_exception f giveup remaining (attempt + 1)

/-- Source `get_parameter`: `ssm_client.get_parameter` under the backoff
decorator with `max_tries=MAX_RETRIES` and `giveup=no_request_limit_exceeded_code`. -/
def get_parameter (ssm_get_parameter : Nat → Except ClientError α) :
    Except ClientError α × Nat :=
  backoff_on_exception ssm_get_parameter no_request_limit_exceeded_code MAX_RETRIES 1

/-- Source `put_metric_data`: `cw_client.put_metric_data` under the same
backoff decorator. -/
def put_metric_data (cw_put_metric_data : Nat → Except ClientError α) :
    Except ClientError α × Nat :=
  backoff_on_exception cw_put_metric_data no_request_limit_exceeded_code MAX_RETRIES 1

/-- Source `describe_auto_scaling_groups`: `asg_client.describe_auto_scaling_groups`
under the same backoff decorator. -/
def describe_auto_scaling_groups (asg_describe : Nat → Except ClientError α) :
    Except ClientError α × Nat :=
  backoff_on_exception asg_describe no_request_limit_exceeded_code MAX_RETRIES 1

/-- A project as consumed by `get_all_project_ids`: only `id` and the parsed
`last_activity_at` timestamp are read. -/
structure Project where
  id : Int
  last_activity_at : Int
deriving DecidableEq, Repr

/-- One response of the paginated project-listing endpoint: HTTP status, the
decoded JSON body, and the `Links` header when the server sent one. -/
structure PageResponse where
  status_code : Nat
  projects : List Project
  linksHeader : Option String
deriving DecidableEq, Repr

/-- Python `str.split` with a one-character separator: splits at every
occurrence and keeps empty fragments, so the result is never empty. -/
def pySplit (c : Char) : List Char → List (List Char)
  | [] => [[]]
  | x :: xs =>
    match pySplit c xs with
    | [] => [[]]
    | y :: ys => if x = c then [] :: y :: ys else (x :: y) :: ys

/-- The cursor extraction `res.headers[Links].split(lt)[1].split(gt)[0]`.
`none` models the `IndexError` Python raises when the header value contains no
`<` (then the split on `<` has a single element and index 1 is out of range); the
inner index 0 always exists because `split` never returns an empty list. -/
def extract_next_link (header : String) : Option String :=
  match pySplit '<' header.data with
  | _ :: second :: _ =>
    match pySplit '>' second with
    | first :: _ => some (String.mk first)
    | [] => none
  | _ => none

/-- Seconds in `timedelta(hours=4)`. -/
def four_hours : Int := 14400

/-- Source `get_all_project_ids`, run against the list of page responses the
server returns in order.  Each iteration of the `while True` loop consumes one
page: non-200 raises; projects whose last activity is strictly after
`now - 4h` contribute their id; a missing `Links` header breaks the loop; an
extraction failure on a present header is the `IndexError` of the slicing
expression; otherwise the loop continues with the next page.  An exhausted
page list models a server that stopped responding. -/
def get_all_project_ids (now : Int) : List PageResponse → Except String (List Int)
  | [] => Except.error "no response from server"
  | page :: rest =>
    if page.status_code ≠ 200 then
      Except.error "Error retrieving all the projects"
    else
      let four_hours_ago := now - four_hours
      let ids := (page.projects.filter
        (fun p => four_hours_ago < p.last_activity_at)).map (fun p => p.id)
      match page.linksHeader with
      | none => Except.ok ids
      | some h =>
        match extract_next_link h with
        | none => Except.error "IndexError: list index out of range"
        | some _ =>
          match get_all_project_ids now rest with
          | Except.ok more => Except.ok (ids ++ more)
          | Except.error msg => Except.error msg

/-- A job object as consumed by the aggregation: only `id` is read. -/
structure Job where
  id : Int
deriving DecidableEq, Repr

/-- One response of a job-listing GET (scope pending or running). -/
structure JobsResponse where
  status_code : Nat
  jobs : List Job
deriving DecidableEq, Repr

/-- Source `get_pending_jobs`, applied to the response of the pending-scope
GET for the project: a non-200 status is logged and yields `[]`; otherwise the
decoded job list is returned. -/
def get_pending_jobs (res : JobsResponse) : List Job :=
  if res.status_code ≠ 200 then [] else res.jobs

/-- Source `get_running_jobs`, same shape as `get_pending_jobs` for the
running scope. -/
def get_running_jobs (res : JobsResponse) : List Job :=
  if res.status_code ≠ 200 then [] else res.jobs

/-- Source `get_all_pending_and_running_job_ids`: list the projects, then for
each project id collect the ids of its pending and running jobs (the source
guards each `extend` by a non-emptiness test used only for logging).
`pending_api` and `running_api` give the response of the two GETs per
project. -/
def get_all_pending_and_running_job_ids (now : Int) (pages : List PageResponse)
    (pending_api running_api : Int → JobsResponse) :
    Except String (List Int × List Int) :=
  match get_all_project_ids now pages with
  | Except.error msg => Except.error msg
  | Except.ok project_ids =>
    Except.ok (project_ids.foldl
      (fun acc project_id =>
        ((if (get_pending_jobs (pending_api project_id)).length ≠ 0 then
            acc.1 ++ (get_pending_jobs (pending_api project_id)).map (fun j => j.id)
          else acc.1),
         (if (get_running_jobs (running_api project_id)).length ≠ 0 then
            acc.2 ++ (get_running_jobs (running_api project_id)).map (fun j => j.id)
          else acc.2)))
      ([], []))

/-- Source `get_number_of_pending_and_running_jobs`: the lengths of the two
collected id lists. -/
def get_number_of_pending_and_running_jobs (now : Int) (pages : List PageResponse)
    (pending_api running_api : Int → JobsResponse) : Except String (Nat × Nat) :=
  match get_all_pending_and_running_job_ids now pages pending_api running_api with
  | Except.error msg => Except.error msg
  | Except.ok ids => Except.ok (ids.1.length, ids.2.length)

/-- Scope of a job-listing request. -/
inductive JobScope
  | pending
  | running
deriving DecidableEq, Repr

/-- The job-listing requests the aggregation issues, read off the control flow of the source: `get_all_pending_and_running_job_ids` first calls
`get_all_project_ids`; if that raises, no job-listing GET is ever issued;
otherwise the loop issues one pending-scope and one running-scope GET per
project id, in order. -/
def job_requests_issued (now : Int) (pages : List PageResponse) :
    List (Int × JobScope) :=
  match get_all_project_ids now pages with
  | Except.error _ => []
  | Except.ok project_ids =>
    project_ids.flatMap (fun pid => [(pid, JobScope.pending), (pid, JobScope.running)])

/-- An autoscaling-group instance entry as consumed by the source: only the
`InstanceId`, `HealthStatus` and `LifecycleState` fields are read. -/
structure AsgInstance where
  InstanceId : String
  HealthStatus : String
  LifecycleState : String
deriving DecidableEq, Repr

/-- Source `get_asg_healthy_instances_in_service`, applied to the instance
list of the described autoscaling group: counts the instances whose
`HealthStatus` equals `"Healthy"` and whose `LifecycleState` equals
`"InService"`. -/
def get_asg_healthy_instances_in_service (instances : List AsgInstance) : Nat :=
  instances.foldl
    (fun acc inst =>
      if inst.HealthStatus = "Healthy" ∧ inst.LifecycleState = "InService" then
        acc + 1
      else acc)
    0

/-- The load computation of `handler`: `runners_overall_load = 100`, replaced
by `float(100 * running_jobs) / float(healthy * RUNNERS_PER_INSTANCE)` when
the healthy count is truthy (non-zero).  Reals are modelled by `ℚ`; `none`
models the `ZeroDivisionError` Python raises when the healthy count is
non-zero but the configured per-instance capacity is zero. -/
def runners_overall_load (running_jobs healthy_instances_in_service
    runners_per_instance : Nat) : Option ℚ :=
  if healthy_instances_in_service ≠ 0 then
    if healthy_instances_in_service * runners_per_instance = 0 then none
    else some ((100 * (running_jobs : ℚ)) /
      ((healthy_instances_in_service : ℚ) * (runners_per_instance : ℚ)))
  else some 100

/-- A page response on which the pagination loop keeps going: status 200 and a
`Links` header whose cursor extraction succeeds. -/
def continuing_page (p : PageResponse) : Prop :=
  p.status_code = 200 ∧ ∃ h u, p.linksHeader = some h ∧ extract_next_link h = some u

/-- The ids, across all pages in order, of the projects whose last activity is
strictly after `now - 4h` (the characterization the discovery loop is proved
to compute). -/
def recent_project_ids (now : Int) (pages : List PageResponse) : List Int :=
  ((pages.flatMap (fun pg => pg.projects)).filter
    (fun p => now - four_hours < p.last_activity_at)).map (fun p => p.id)

/-- How many page GETs the discovery loop issues on the given response
sequence (one per consumed page, following the control flow of the source). -/
def num_page_requests : List PageResponse → Nat
  | [] => 0
  | page :: rest =>
    if page.status_code ≠ 200 then 1
    else
      match page.linksHeader with
      | none => 1
      | some h =>
        match extract_next_link h with
        | none => 1
        | some _ => 1 + num_page_requests rest

/-! ### Concrete fixtures used by witnesses -/

/-- A client error whose code is the rate-limit code. -/
def rate_limit_error : ClientError := ⟨⟨some ⟨some "RequestLimitExceeded"⟩⟩⟩

/-- A client error with a non-rate-limit code. -/
def access_denied_error : ClientError := ⟨⟨some ⟨some "AccessDenied"⟩⟩⟩

/-- A client error whose response carries no error code at all. -/
def no_code_error : ClientError := ⟨⟨none⟩⟩

/-- An SDK call that is rate-limited on attempts 1 through 7 and succeeds on
attempt 8. -/
def flaky_sdk_call (i : Nat) : Except ClientError Nat :=
  if i ≤ 7 then Except.error rate_limit_error else Except.ok 42

/-- A first project page: one recent project (id 1), one stale project (id 2),
and a cursor header pointing at the next page. -/
def first_project_page : PageResponse :=
  ⟨200, [⟨1, 0⟩, ⟨2, -20000⟩],
    some "<https://gitlab.example.com/api/v4/projects?cursor=2>; rel=\"next\""⟩

/-- A final project page: one recent project (id 3) and no cursor header. -/
def last_project_page : PageResponse := ⟨200, [⟨3, -10000⟩], none⟩

/-- A failing project page (HTTP 500). -/
def bad_project_page : PageResponse := ⟨500, [], none⟩

/-- A single final page listing two recent projects (ids 1 and 2). -/
def two_project_page : PageResponse := ⟨200, [⟨1, 0⟩, ⟨2, 0⟩], none⟩

/-- A single final page listing three recent projects (ids 1, 2 and 3). -/
def three_project_page : PageResponse := ⟨200, [⟨1, 0⟩, ⟨2, 0⟩, ⟨3, 0⟩], none⟩

/-- A pending-scope job API that fails with HTTP 500 for project 1 and
returns two jobs for every other project. -/
def failing_pending_api (pid : Int) : JobsResponse :=
  if pid = 1 then ⟨500, [⟨900⟩]⟩ else ⟨200, [⟨21⟩, ⟨22⟩]⟩

/-- A running-scope job API that returns one job for project 1 and fails with
HTTP 500 for every other project. -/
def failing_running_api (pid : Int) : JobsResponse :=
  if pid = 1 then ⟨200, [⟨11⟩]⟩ else ⟨500, [⟨999⟩]⟩

/-- A pending-scope job API returning lists of sizes 3, 0 and 5 for projects
1, 2 and 3. -/
def sized_pending_api (pid : Int) : JobsResponse :=
  if pid = 1 then ⟨200, [⟨101⟩, ⟨102⟩, ⟨103⟩]⟩
  else if pid = 2 then ⟨200, []⟩
  else ⟨200, [⟨301⟩, ⟨302⟩, ⟨303⟩, ⟨304⟩, ⟨305⟩]⟩

/-- A running-scope job API returning lists of sizes 1, 2 and 0 for projects
1, 2 and 3. -/
def sized_running_api (pid : Int) : JobsResponse :=
  if pid = 1 then ⟨200, [⟨111⟩]⟩
  else if pid = 2 then ⟨200, [⟨211⟩, ⟨212⟩]⟩
  else ⟨200, []⟩

/-! ### Helper lemmas -/

/-- The healthy-instance fold counts, starting from any accumulator, exactly
the instances passing the conjunction filter. -/
lemma healthy_foldl_eq (instances : List AsgInstance) (n : Nat) :
    instances.foldl
      (fun acc inst =>
        if inst.HealthStatus = "Healthy" ∧ inst.LifecycleState = "InService" then
          acc + 1
        else acc)
      n
    = n + (instances.filter
        (fun inst => inst.HealthStatus == "Healthy" && inst.LifecycleState == "InService")).length := by
  induction instances generalizing n with
  | nil => simp
  | cons i is ih =>
    by_cases h : i.HealthStatus = "Healthy" ∧ i.LifecycleState = "InService"
    · simp [List.foldl_cons, h, h.1, h.2, ih]
      omega
    · rw [List.foldl_cons, if_neg h, ih]
      have hb : (i.HealthStatus == "Healthy" && i.LifecycleState == "InService") = false := by
        rcases Decidable.not_and_iff_or_not.mp h with h1 | h1 <;> simp [h1]
      rw [List.filter_cons_of_neg (by simp [hb])]

/-- If the first `k` attempts (starting at `att`) raise a retryable error and
attempt `att + k` succeeds, the backoff loop returns that success after
exactly `att + k` calls, provided more than `k` tries remain. -/
lemma backoff_retries_until_ok {α : Type} (f : Nat → Except ClientError α)
    (g : ClientError → Bool) (e : ClientError) (a : α) (hg : g e = false) :
    ∀ (k att remaining : Nat), k < remaining →
      (∀ i, att ≤ i → i < att + k → f i = Except.error e) →
      f (att + k) = Except.ok a →
      backoff_on_exception f g remaining att = (Except.ok a, att + k) := by
  intro k
  induction k with
  | zero =>
    intro att remaining hrem _ hok
    match remaining, hrem with
    | r + 1, _ =>
      rw [backoff_on_exception]
      simp only [Nat.add_zero] at hok
      simp [hok]
  | succ k ih =>
    intro att remaining hrem hfail hok
    match remaining, hrem with
    | r + 1, hrem =>
      have hr : k < r := by omega
      have hA : f att = Except.error e := hfail att (Nat.le_refl att) (by omega)
      rw [backoff_on_exception]
      simp only [hA, hg, Bool.false_or]
      rw [if_neg (by simp; omega)]
      have := ih (att + 1) r hr
        (fun i h1 h2 => hfail i (by omega) (by omega))
        (by rw [show att + 1 + k = att + (k + 1) by omega]; exact hok)
      rw [this, show att + 1 + k = att + (k + 1) by omega]

/-- If the first attempt raises an error on which the giveup predicate holds,
the backoff loop propagates it after exactly one call. -/
lemma backoff_gives_up {α : Type} (f : Nat → Except ClientError α)
    (g : ClientError → Bool) (e : ClientError) (hg : g e = true)
    (r att : Nat) (hf : f att = Except.error e) :
    backoff_on_exception f g (r + 1) att = (Except.error e, att) := by
  rw [backoff_on_exception]
  simp [hf, hg]

/-- The attempt number the backoff loop stops at is bounded by the first
attempt number plus the number of extra tries allowed. -/
lemma backoff_call_bound {α : Type} (f : Nat → Except ClientError α)
    (g : ClientError → Bool) :
    ∀ r att, (backoff_on_exception f g (r + 1) att).2 ≤ att + r := by
  intro r
  induction r with
  | zero =>
    intro att
    rw [backoff_on_exception]
    match f att with
    | Except.ok a => simp
    | Except.error e => simp
  | succ r ih =>
    intro att
    rw [backoff_on_exception]
    match f att with
    | Except.ok a => simp
    | Except.error e =>
      simp only
      by_cases hg : g e = true
      · simp [hg]
      · rw [if_neg (by simp [hg])]
        have := ih (att + 1)
        omega

/-- On a run whose pages all continue except a final cursor-less page, the
discovery loop succeeds and returns exactly the recent project ids of all
pages in order. -/
lemma get_all_project_ids_ok (now : Int) (front : List PageResponse)
    (last : PageResponse) (hfront : ∀ p ∈ front, continuing_page p)
    (h200 : last.status_code = 200) (hnone : last.linksHeader = none) :
    get_all_project_ids now (front ++ [last])
      = Except.ok (recent_project_ids now (front ++ [last])) := by
  induction front with
  | nil =>
    rw [List.nil_append, get_all_project_ids]
    simp [h200, hnone, recent_project_ids]
  | cons p fr ih =>
    obtain ⟨hp, hstr, u, hlink, hext⟩ := hfront p (by simp)
    rw [List.cons_append, get_all_project_ids]
    rw [if_neg (by simp [hp])]
    simp only [hlink, hext]
    rw [ih (fun q hq => hfront q (by simp [hq]))]
    simp [recent_project_ids, List.filter_append]

/-- On such a run, the loop issues one page GET per page: the front pages all
continue and the final page stops the loop. -/
lemma num_page_requests_ok (front : List PageResponse) (last : PageResponse)
    (hfront : ∀ p ∈ front, continuing_page p)
    (h200 : last.status_code = 200) (hnone : last.linksHeader = none) :
    num_page_requests (front ++ [last]) = front.length + 1 := by
  induction front with
  | nil =>
    rw [List.nil_append, num_page_requests]
    simp [h200, hnone]
  | cons p fr ih =>
    obtain ⟨hp, hstr, u, hlink, hext⟩ := hfront p (by simp)
    rw [List.cons_append, num_page_requests]
    rw [if_neg (by simp [hp])]
    simp only [hlink, hext]
    rw [ih (fun q hq => hfront q (by simp [hq]))]
    simp [Nat.add_comm]

/-- A non-200 page reached after continuing pages makes the discovery loop
raise the generic project-listing error. -/
lemma get_all_project_ids_fails (now : Int) (front : List PageResponse)
    (bad : PageResponse) (rest : List PageResponse)
    (hfront : ∀ p ∈ front, continuing_page p) (hbad : bad.status_code ≠ 200) :
    get_all_project_ids now (front ++ bad :: rest)
      = Except.error "Error retrieving all the projects" := by
  induction front with
  | nil => rw [List.nil_append, get_all_project_ids, if_pos hbad]
  | cons p fr ih =>
    obtain ⟨hp, hstr, u, hlink, hext⟩ := hfront p (by simp)
    rw [List.cons_append, get_all_project_ids]
    rw [if_neg (by simp [hp])]
    simp only [hlink, hext]
    rw [ih (fun q hq => hfront q (by simp [hq]))]

/-- The non-emptiness guard around each `extend` is a no-op: extending by an
empty map is the identity. -/
lemma extend_if_length (l : List Job) (acc : List Int) :
    (if l.length ≠ 0 then acc ++ l.map (fun j => j.id) else acc)
      = acc ++ l.map (fun j => j.id) := by
  cases l with
  | nil => simp
  | cons j js => rw [if_pos (by simp)]

/-- The aggregation fold collects, from any starting accumulator, the
concatenation of the per-project id lists in order. -/
lemma collect_foldl (project_ids : List Int) (P R : Int → List Job)
    (a b : List Int) :
    project_ids.foldl
      (fun acc pid =>
        ((if (P pid).length ≠ 0 then acc.1 ++ (P pid).map (fun j => j.id)
          else acc.1),
         (if (R pid).length ≠ 0 then acc.2 ++ (R pid).map (fun j => j.id)
          else acc.2)))
      (a, b)
    = (a ++ project_ids.flatMap (fun pid => (P pid).map (fun j => j.id)),
       b ++ project_ids.flatMap (fun pid => (R pid).map (fun j => j.id))) := by
  induction project_ids generalizing a b with
  | nil => simp
  | cons pid rest ih =>
    rw [List.foldl_cons, ih, extend_if_length, extend_if_length]
    simp [List.append_assoc]

/-- When project listing succeeds, the aggregation returns the concatenated
pending and running job ids across the listed projects. -/
lemma get_all_pending_and_running_job_ids_eq (now : Int)
    (pages : List PageResponse) (pids : List Int)
    (pending_api running_api : Int → JobsResponse)
    (h : get_all_project_ids now pages = Except.ok pids) :
    get_all_pending_and_running_job_ids now pages pending_api running_api
      = Except.ok
         (pids.flatMap (fun pid => (get_pending_jobs (pending_api pid)).map (fun j => j.id)),
          pids.flatMap (fun pid => (get_running_jobs (running_api pid)).map (fun j => j.id))) := by
  simp only [get_all_pending_and_running_job_ids, h]
  exact congrArg Except.ok
    ((collect_foldl pids (fun pid => get_pending_jobs (pending_api pid))
      (fun pid => get_running_jobs (running_api pid)) [] []).trans (by simp))

/-! ### Theorems for the claims -/

/-- C6: the healthy-in-service count equals the number of instances whose
health status is exactly "Healthy" and whose lifecycle state is exactly
"InService"; an instance satisfying only one of the two conditions leaves the
count unchanged. -/
theorem healthy_instance_count_spec (instances : List AsgInstance) :
    get_asg_healthy_instances_in_service instances
      = (instances.filter
          (fun inst => inst.HealthStatus == "Healthy" && inst.LifecycleState == "InService")).length
    ∧ (∀ (inst : AsgInstance) (l1 l2 : List AsgInstance),
        ¬ (inst.HealthStatus = "Healthy" ∧ inst.LifecycleState = "InService") →
        get_asg_healthy_instances_in_service (l1 ++ inst :: l2)
          = get_asg_healthy_instances_in_service (l1 ++ l2)) := by
  constructor
  · rw [get_asg_healthy_instances_in_service, healthy_foldl_eq]
    omega
  · intro inst l1 l2 h
    have hb : (inst.HealthStatus == "Healthy" && inst.LifecycleState == "InService") = false := by
      rcases Decidable.not_and_iff_or_not.mp h with h1 | h1 <;> simp [h1]
    rw [get_asg_healthy_instances_in_service, get_asg_healthy_instances_in_service,
      healthy_foldl_eq, healthy_foldl_eq, List.filter_append, List.filter_append,
      List.filter_cons_of_neg (by simp [hb])]

/-- C6 witness: on a concrete list, the count is the filtered length, and a
Healthy instance still in lifecycle state Pending is not counted. -/
theorem healthy_instance_count_spec_witness :
    get_asg_healthy_instances_in_service
        [⟨"i-1", "Healthy", "InService"⟩, ⟨"i-2", "Healthy", "Pending"⟩]
      = ([⟨"i-1", "Healthy", "InService"⟩, (⟨"i-2", "Healthy", "Pending"⟩ : AsgInstance)].filter
          (fun inst => inst.HealthStatus == "Healthy" && inst.LifecycleState == "InService")).length
    ∧ get_asg_healthy_instances_in_service
        [⟨"i-1", "Healthy", "InService"⟩, ⟨"i-2", "Healthy", "Pending"⟩]
      = get_asg_healthy_instances_in_service [⟨"i-1", "Healthy", "InService"⟩] := by
  refine ⟨(healthy_instance_count_spec _).1, ?_⟩
  exact (healthy_instance_count_spec ([] : List AsgInstance)).2 ⟨"i-2", "Healthy", "Pending"⟩
    [⟨"i-1", "Healthy", "InService"⟩] [] (by intro h; exact absurd h.2 (by decide))

/-- C8: on the header value of the claim, the cursor extraction yields exactly
the content of the first angle-bracket segment. -/
theorem cursor_extraction_spec :
    extract_next_link "<https://x/page2>; rel=\"next\"" = some "https://x/page2" := by
  decide

/-- C1: with zero healthy instances the load is the sentinel 100 whatever the
running-job count; with a positive healthy count and positive per-instance
capacity the load is 100 * running_jobs / (healthy * runners_per_instance);
in particular 4 running jobs on 2 healthy instances of capacity 4 give load
50. -/
theorem load_computation_spec :
    (∀ running_jobs runners_per_instance : Nat,
      runners_overall_load running_jobs 0 runners_per_instance = some 100)
    ∧ (∀ running_jobs healthy runners_per_instance : Nat,
        0 < healthy → 0 < runners_per_instance →
        runners_overall_load running_jobs healthy runners_per_instance
          = some ((100 * (running_jobs : ℚ)) / ((healthy : ℚ) * (runners_per_instance : ℚ))))
    ∧ runners_overall_load 4 2 4 = some 50 := by
  refine ⟨?_, ?_, ?_⟩
  · intro r c
    simp [runners_overall_load]
  · intro r h c hh hc
    rw [runners_overall_load, if_pos (Nat.pos_iff_ne_zero.mp hh),
      if_neg (by positivity)]
  · rw [runners_overall_load]
    norm_num

/-- C1 witness: the positive branch applied at the instance named in the claim. -/
theorem load_computation_spec_witness :
    runners_overall_load 4 2 4 = some ((100 * (4 : ℚ)) / ((2 : ℚ) * (4 : ℚ))) :=
  load_computation_spec.2.1 4 2 4 (by decide) (by decide)

/-- C5: for each of the three wrapped SDK calls, a run that is rate-limited on
attempts 1 through 7 and succeeds on attempt 8 returns the success after
exactly 8 calls; a non-rate-limit error on attempt 1 propagates after exactly
one call; and no run ever makes more than MAX_RETRIES = 8 calls. -/
theorem sdk_retry_policy_spec {α : Type} (f : Nat → Except ClientError α) :
    (∀ (rate : ClientError) (a : α),
        get_error_code rate = "RequestLimitExceeded" →
        (∀ i, 1 ≤ i → i ≤ 7 → f i = Except.error rate) →
        f 8 = Except.ok a →
        get_parameter f = (Except.ok a, 8)
        ∧ put_metric_data f = (Except.ok a, 8)
        ∧ describe_auto_scaling_groups f = (Except.ok a, 8))
    ∧ (∀ e : ClientError,
        get_error_code e ≠ "RequestLimitExceeded" →
        f 1 = Except.error e →
        get_parameter f = (Except.error e, 1)
        ∧ put_metric_data f = (Except.error e, 1)
        ∧ describe_auto_scaling_groups f = (Except.error e, 1))
    ∧ (get_parameter f).2 ≤ MAX_RETRIES
    ∧ (put_metric_data f).2 ≤ MAX_RETRIES
    ∧ (describe_auto_scaling_groups f).2 ≤ MAX_RETRIES := by
  have hok : ∀ (rate : ClientError) (a : α),
      get_error_code rate = "RequestLimitExceeded" →
      (∀ i, 1 ≤ i → i ≤ 7 → f i = Except.error rate) →
      f 8 = Except.ok a →
      backoff_on_exception f no_request_limit_exceeded_code MAX_RETRIES 1
        = (Except.ok a, 8) := by
    intro rate a hcode hfail hsucc
    have hg : no_request_limit_exceeded_code rate = false := by
      simp [no_request_limit_exceeded_code, hcode]
    have h := backoff_retries_until_ok f no_request_limit_exceeded_code rate a hg
      7 1 MAX_RETRIES (by rw [MAX_RETRIES]; omega)
      (fun i h1 h2 => hfail i h1 (by omega)) (by exact hsucc)
    simpa using h
  have herr : ∀ e : ClientError,
      get_error_code e ≠ "RequestLimitExceeded" →
      f 1 = Except.error e →
      backoff_on_exception f no_request_limit_exceeded_code MAX_RETRIES 1
        = (Except.error e, 1) := by
    intro e hcode hf
    have hg : no_request_limit_exceeded_code e = true := by
      simp [no_request_limit_exceeded_code, hcode]
    exact backoff_gives_up f no_request_limit_exceeded_code e hg 7 1 hf
  have hbound : (backoff_on_exception f no_request_limit_exceeded_code MAX_RETRIES 1).2
      ≤ MAX_RETRIES := by
    have h := backoff_call_bound f no_request_limit_exceeded_code 7 1
    simpa using h
  refine ⟨?_, ?_, ?_, ?_, ?_⟩
  · intro rate a h1 h2 h3
    exact ⟨hok rate a h1 h2 h3, hok rate a h1 h2 h3, hok rate a h1 h2 h3⟩
  · intro e h1 h2
    exact ⟨herr e h1 h2, herr e h1 h2, herr e h1 h2⟩
  · exact hbound
  · exact hbound
  · exact hbound

/-- C5 witness: the flaky call succeeds after 8 calls; an access-denied error
propagates after one call. -/
theorem sdk_retry_policy_spec_witness :
    get_parameter flaky_sdk_call = (Except.ok 42, 8)
    ∧ put_metric_data (fun _ => (Except.error access_denied_error : Except ClientError Nat))
        = (Except.error access_denied_error, 1) := by
  constructor
  · exact ((sdk_retry_policy_spec flaky_sdk_call).1 rate_limit_error 42 rfl
      (fun i h1 h7 => by simp [flaky_sdk_call, h7]) rfl).1
  · exact ((sdk_retry_policy_spec
      (fun _ => (Except.error access_denied_error : Except ClientError Nat))).2.1
      access_denied_error (by decide) rfl).2.1

/-- C10: a client error whose response carries no error-code field is read as
code "Unknown", so the giveup predicate holds and the error propagates after
exactly one call of each wrapped SDK call. -/
theorem missing_error_code_spec {α : Type} (f : Nat → Except ClientError α)
    (e : ClientError)
    (hmissing : e.response.Error = none
      ∨ ∃ info, e.response.Error = some info ∧ info.Code = none)
    (hf : f 1 = Except.error e) :
    get_error_code e = "Unknown"
    ∧ no_request_limit_exceeded_code e = true
    ∧ get_parameter f = (Except.error e, 1)
    ∧ put_metric_data f = (Except.error e, 1)
    ∧ describe_auto_scaling_groups f = (Except.error e, 1) := by
  have hcode : get_error_code e = "Unknown" := by
    rcases hmissing with h | ⟨info, h1, h2⟩
    · rw [get_error_code, h]
    · rw [get_error_code, h1]
      simp [h2]
  have hg : no_request_limit_exceeded_code e = true := by
    simp [no_request_limit_exceeded_code, hcode]
  have hstop : backoff_on_exception f no_request_limit_exceeded_code MAX_RETRIES 1
      = (Except.error e, 1) :=
    backoff_gives_up f no_request_limit_exceeded_code e hg 7 1 hf
  exact ⟨hcode, hg, hstop, hstop, hstop⟩

/-- C10 witness: the codeless error at a concrete single-error call. -/
theorem missing_error_code_spec_witness :
    get_error_code no_code_error = "Unknown"
    ∧ get_parameter (fun _ => (Except.error no_code_error : Except ClientError Nat))
        = (Except.error no_code_error, 1) := by
  have h := missing_error_code_spec
    (fun _ => (Except.error no_code_error : Except ClientError Nat))
    no_code_error (Or.inl rfl) rfl
  exact ⟨h.1, h.2.2.1⟩

/-- C2: on any page sequence whose pages all continue until a final
cursor-less page, discovery succeeds; its output contains a project id iff
some returned project carries that id with last activity strictly after
now - 4h; and the loop issues one GET per page, stopping exactly at the page
that lacks the cursor header. -/
theorem project_discovery_spec (now : Int) (front : List PageResponse)
    (last : PageResponse) (hfront : ∀ p ∈ front, continuing_page p)
    (h200 : last.status_code = 200) (hnone : last.linksHeader = none) :
    get_all_project_ids now (front ++ [last])
      = Except.ok (recent_project_ids now (front ++ [last]))
    ∧ (∀ pid : Int, pid ∈ recent_project_ids now (front ++ [last]) ↔
        ∃ p, p ∈ (front ++ [last]).flatMap (fun pg => pg.projects)
          ∧ now - four_hours < p.last_activity_at ∧ p.id = pid)
    ∧ num_page_requests (front ++ [last]) = front.length + 1 := by
  refine ⟨get_all_project_ids_ok now front last hfront h200 hnone, ?_,
    num_page_requests_ok front last hfront h200 hnone⟩
  intro pid
  simp [recent_project_ids, List.mem_filter, and_assoc]
  constructor
  · rintro (⟨a, ⟨pg, hpg, ha⟩, hlt, hid⟩ | ⟨a, ha, hlt, hid⟩)
    · exact ⟨a, Or.inl ⟨pg, hpg, ha⟩, hlt, hid⟩
    · exact ⟨a, Or.inr ha, hlt, hid⟩
  · rintro ⟨a, ⟨pg, hpg, ha⟩ | ha, hlt, hid⟩
    · exact Or.inl ⟨a, ⟨pg, hpg, ha⟩, hlt, hid⟩
    · exact Or.inr ⟨a, ha, hlt, hid⟩

/-- C2 witness: two pages, three projects, one stale; discovery returns the
two recent ids and issues two page GETs. -/
theorem project_discovery_spec_witness :
    get_all_project_ids 0 [first_project_page, last_project_page]
      = Except.ok [1, 3]
    ∧ num_page_requests [first_project_page, last_project_page] = 2 := by
  have h := project_discovery_spec 0 [first_project_page] last_project_page
    (by
      intro p hp
      rw [List.mem_singleton] at hp
      subst hp
      exact ⟨rfl, "<https://gitlab.example.com/api/v4/projects?cursor=2>; rel=\"next\"",
        "https://gitlab.example.com/api/v4/projects?cursor=2", rfl, rfl⟩)
    rfl rfl
  exact ⟨h.1.trans (by rfl), by simpa using h.2.2⟩

/-- C9 counterexample: a 200 page whose Links header is present but empty
makes the run raise (the slicing in the cursor extraction throws IndexError),
instead of terminating cleanly as the claim states. -/
theorem discovery_empty_links_counterexample :
    get_all_project_ids 0 [(⟨200, [], some ""⟩ : PageResponse)]
      = Except.error "IndexError: list index out of range" := rfl

/-- C9 amended: if a project-listing response lacks the cursor header, or
returns an empty project list on such a final page, discovery terminates
cleanly with the ids accumulated so far, possibly zero ids.  (A present but
empty cursor header value instead raises an IndexError.) -/
theorem discovery_clean_termination (now : Int) (front : List PageResponse)
    (last : PageResponse) (hfront : ∀ p ∈ front, continuing_page p)
    (h200 : last.status_code = 200) (hnone : last.linksHeader = none) :
    get_all_project_ids now (front ++ [last])
      = Except.ok (recent_project_ids now (front ++ [last]))
    ∧ (front = [] → last.projects = [] →
        get_all_project_ids now (front ++ [last]) = Except.ok []) := by
  refine ⟨get_all_project_ids_ok now front last hfront h200 hnone, ?_⟩
  intro hf hp
  subst hf
  rw [get_all_project_ids_ok now [] last (by intro p h; cases h) h200 hnone]
  simp [recent_project_ids, hp]

/-- C9 witness: a single cursor-less page with no projects yields zero ids
without raising. -/
theorem discovery_clean_termination_witness :
    get_all_project_ids 0 [(⟨200, [], none⟩ : PageResponse)] = Except.ok [] := by
  have h := discovery_clean_termination 0 [] ⟨200, [], none⟩
    (by intro p hp; cases hp) rfl rfl
  exact h.2 rfl rfl

/-- C4: a non-200 project-listing page makes the whole invocation abort with
the generic error: the aggregation returns that error, returns no project
results at all, and no per-project job-listing request is ever issued. -/
theorem project_listing_fatal_spec (now : Int) (front : List PageResponse)
    (bad : PageResponse) (rest : List PageResponse)
    (pending_api running_api : Int → JobsResponse)
    (hfront : ∀ p ∈ front, continuing_page p) (hbad : bad.status_code ≠ 200) :
    get_all_pending_and_running_job_ids now (front ++ bad :: rest)
        pending_api running_api
      = Except.error "Error retrieving all the projects"
    ∧ job_requests_issued now (front ++ bad :: rest) = [] := by
  have h := get_all_project_ids_fails now front bad rest hfront hbad
  constructor
  · rw [get_all_pending_and_running_job_ids, h]
  · rw [job_requests_issued, h]

/-- C4 witness: one failing page aborts the run with the generic error and an
empty job-request trace. -/
theorem project_listing_fatal_spec_witness :
    get_all_pending_and_running_job_ids 0 [bad_project_page]
        (fun _ => ⟨200, []⟩) (fun _ => ⟨200, []⟩)
      = Except.error "Error retrieving all the projects"
    ∧ job_requests_issued 0 [bad_project_page] = [] :=
  project_listing_fatal_spec 0 [] bad_project_page []
    (fun _ => ⟨200, []⟩) (fun _ => ⟨200, []⟩)
    (by intro p hp; cases hp) (by decide)

/-- C3: when project listing succeeds, the aggregation never raises and
returns, for every project in order, the ids of its pending and running jobs;
a non-200 job-listing response is read as the empty job list, so a failed
scope contributes exactly zero while the remaining projects are still
aggregated. -/
theorem job_listing_soft_failure_spec (now : Int) (pages : List PageResponse)
    (pids : List Int) (pending_api running_api : Int → JobsResponse)
    (h : get_all_project_ids now pages = Except.ok pids) :
    get_all_pending_and_running_job_ids now pages pending_api running_api
      = Except.ok
         (pids.flatMap (fun pid => (get_pending_jobs (pending_api pid)).map (fun j => j.id)),
          pids.flatMap (fun pid => (get_running_jobs (running_api pid)).map (fun j => j.id)))
    ∧ (∀ pid, (pending_api pid).status_code ≠ 200 →
        get_pending_jobs (pending_api pid) = [])
    ∧ (∀ pid, (running_api pid).status_code ≠ 200 →
        get_running_jobs (running_api pid) = []) := by
  refine ⟨get_all_pending_and_running_job_ids_eq now pages pids
    pending_api running_api h, ?_, ?_⟩
  · intro pid hpid
    rw [get_pending_jobs, if_pos hpid]
  · intro pid hpid
    rw [get_running_jobs, if_pos hpid]

/-- C3 witness: the pending scope of project 1 and the running scope of project 2 fail
with 500; aggregation still succeeds, each failed scope contributing zero. -/
theorem job_listing_soft_failure_spec_witness :
    get_all_pending_and_running_job_ids 0 [two_project_page]
        failing_pending_api failing_running_api
      = Except.ok ([21, 22], [11])
    ∧ get_pending_jobs (failing_pending_api 1) = [] := by
  have h := job_listing_soft_failure_spec 0 [two_project_page] [1, 2]
    failing_pending_api failing_running_api rfl
  exact ⟨h.1.trans (by rfl), h.2.1 1 (by decide)⟩

/-- C7: when project listing succeeds, the aggregated pending count is the sum
of the per-project pending list lengths and the aggregated running count is
the sum of the per-project running list lengths. -/
theorem job_count_aggregation_spec (now : Int) (pages : List PageResponse)
    (pids : List Int) (pending_api running_api : Int → JobsResponse)
    (h : get_all_project_ids now pages = Except.ok pids) :
    get_number_of_pending_and_running_jobs now pages pending_api running_api
      = Except.ok
         ((pids.map (fun pid => (get_pending_jobs (pending_api pid)).length)).sum,
          (pids.map (fun pid => (get_running_jobs (running_api pid)).length)).sum) := by
  simp only [get_number_of_pending_and_running_jobs,
    get_all_pending_and_running_job_ids_eq now pages pids pending_api running_api h]
  simp [List.length_flatMap, Function.comp_def, List.length_map]

/-- C7 witness: pending lists of sizes 3, 0, 5 and running lists of sizes
1, 2, 0 across three projects aggregate to the counts 8 and 3. -/
theorem job_count_aggregation_spec_witness :
    get_number_of_pending_and_running_jobs 0 [three_project_page]
        sized_pending_api sized_running_api
      = Except.ok (8, 3) := by
  have h := job_count_aggregation_spec 0 [three_project_page] [1, 2, 3]
    sized_pending_api sized_running_api rfl
  exact h.trans (by rfl)

end PushGitlabMetric
